import Mathlib

/-!
Verification of the spoticord session actor (src/spoticord_session/src/lib.rs).

Shallow embedding: the `Session` struct, its command/event handlers, the idle
timeout controller and the `Drop` cleanup are translated into pure Lean
functions over an explicit state.  External collaborators (audio producer,
credential store result, voice transport) enter as explicit parameters that
record which outcome the environment produced; effects on the outside world
(player shutdown, call leave, chat notices, oneshot replies) are recorded in
an effect trace.  Identifiers (user ids, guild ids, handles, tokens of oneshot
channels) are modelled as `Nat`.
-/

namespace Spoticord

/-- Events emitted by the audio producer (`PlayerEvent` in spoticord_player,
consumed by `Session::handle_event`). -/
inductive PlayerEvent where
  | play
  | pause
  | stopped
  | trackChanged (track : Nat)
  | connectionReset
deriving DecidableEq, Repr

/-- Outcome kind of a failed `Player::create` call.  The session code only
inspects whether the error downcasts to
`AuthenticationError::LoginFailed(ErrorCode::BadCredentials)`; every other
failure is opaque.  The bad-credentials sub-kind follows spec section 6
("Producer creation failures may carry a distinguishable bad credentials
sub-kind"); the producer itself is an external collaborator. -/
inductive PlayerError where
  | badCredentials
  | other (msg : String)
deriving DecidableEq, Repr

/-- The `Error` enum of src/spoticord_session/src/error.rs.  The transparent
wrapper variants (`Serenity`, `Storage`, `JoinError`) carry their message; the
`Wrapped` variant models `why.into()` applied to a `Player::create` error,
which wraps the producer error without reclassifying it. -/
inductive Error where
  | InvalidChannel
  | AuthenticationFailed
  | AlreadyActive
  | Other (msg : String)
  | Serenity (msg : String)
  | Storage (msg : String)
  | JoinError (msg : String)
  | Wrapped (e : PlayerError)
deriving DecidableEq, Repr

/-- A spawned idle-timer task (`tokio::spawn` inside `Session::start_timeout`).
`token` identifies the oneshot cancellation channel handed to it; `cancelled`
records that the cancellation signal was sent on that channel. -/
structure TimerTask where
  token : Nat
  cancelled : Bool
deriving DecidableEq, Repr

/-- The timer can deliver `DisconnectTimedOut` through the internal queue only
if its cancellation channel was never signalled (the `tokio::select!` in the
spawned task returns on the cancellation branch otherwise). -/
def TimerTask.canFire (tm : TimerTask) : Bool :=
  !tm.cancelled

/-- Modelled from the spec: the Session Manager registry (section 4.4), whose
source file (spoticord_session/src/manager.rs) is not part of the provided
sources.  It is a mapping keyed two ways, by guild id and by owner id, with
`remove` idempotent (removing an absent key is not an error).  Values are
session-handle identifiers. -/
structure Registry where
  byGuild : List (Nat × Nat)
  byOwner : List (Nat × Nat)
deriving DecidableEq, Repr

/-- Modelled from the spec: `SessionQuery` as used by
`SessionManager::remove_session` (`SessionQuery::Guild` / `SessionQuery::Owner`). -/
inductive SessionQuery where
  | Guild (id : Nat)
  | Owner (id : Nat)
deriving DecidableEq, Repr

/-- Modelled from the spec: registry lookup by guild id (section 4.4,
"lookup(by guild | by owner) -> optional handle"). -/
def Registry.lookupGuild (r : Registry) (g : Nat) : Option Nat :=
  (r.byGuild.find? (fun p => p.1 = g)).map (·.2)

/-- Modelled from the spec: registry lookup by owner id. -/
def Registry.lookupOwner (r : Registry) (o : Nat) : Option Nat :=
  (r.byOwner.find? (fun p => p.1 = o)).map (·.2)

/-- Modelled from the spec: idempotent removal from either index
(`remove_session(SessionQuery)`). -/
def Registry.removeSession (r : Registry) : SessionQuery → Registry
  | .Guild g => { r with byGuild := r.byGuild.filter (fun p => p.1 ≠ g) }
  | .Owner o => { r with byOwner := r.byOwner.filter (fun p => p.1 ≠ o) }

/-- The mutable fields of the `Session` struct that the claims are about.
`nextToken` is model bookkeeping: a counter handing out fresh identifiers for
the oneshot cancellation channels created by `start_timeout` (in Rust each
`oneshot::channel` is a fresh object).  `playback_embed` / `lyrics_embed` hold
an identifier of the attached projection when present. -/
structure Session where
  guild_id : Nat
  text_channel : Nat
  owner : Nat
  active : Bool
  player : Nat
  events : Nat
  timeout_tx : Option Nat
  nextToken : Nat
  playback_embed : Option Nat
  lyrics_embed : Option Nat
deriving DecidableEq, Repr

/-- Send the cancellation signal on oneshot channel `tok`: the spawned timer
task holding the matching receiver observes it (send on an already-consumed
channel is ignored, which marking an already-cancelled task again models). -/
def cancelToken (tok : Option Nat) (timers : List TimerTask) : List TimerTask :=
  match tok with
  | none => timers
  | some t => timers.map (fun tm => if tm.token = t then { tm with cancelled := true } else tm)

/-- `Session::start_timeout`: take and signal any previously stored
cancellation sender, then create a fresh oneshot pair, store the sender, and
spawn a new delay task racing the receiver. -/
def startTimeout (s : Session) (timers : List TimerTask) : Session × List TimerTask :=
  let timers := cancelToken s.timeout_tx timers
  let tok := s.nextToken
  ({ s with timeout_tx := some tok, nextToken := s.nextToken + 1 },
    timers ++ [{ token := tok, cancelled := false }])

/-- `Session::stop_timeout`: take the stored sender, if any, and signal it. -/
def stopTimeout (s : Session) (timers : List TimerTask) : Session × List TimerTask :=
  match s.timeout_tx with
  | none => (s, timers)
  | some t => ({ s with timeout_tx := none }, cancelToken (some t) timers)

/-- `Session::reactivate`.  The environment's contribution is passed in:
`tokenRes` is the result of `storage().get_spotify_token()` (error, linked
token, or none) and `playerRes` the outcome of `Player::create` with those
credentials (fresh player handle and event stream on success).  Returns the
session state after the call together with the `Result<()>` sent back on the
oneshot reply channel. -/
def Session.reactivate (s : Session) (new_owner : Nat)
    (tokenRes : Except String (Option String))
    (playerRes : Except PlayerError (Nat × Nat)) :
    Session × Except Error Unit :=
  if s.active then
    (s, .error .AlreadyActive)
  else
    match tokenRes with
    | .error e => (s, .error (.Storage e))
    | .ok none => (s, .error (.Other "No Spotify account linked to bot"))
    | .ok (some _tok) =>
      match playerRes with
      | .error why => (s, .error (.Wrapped why))
      | .ok (player, player_events) =>
        ({ s with
            owner := new_owner
            player := player
            events := player_events
            active := true },
          .ok ())

deriving instance DecidableEq for Except

/-- Externally visible effects of the actor: oneshot replies, producer
shutdown, leaving the voice call, chat notices, projection updates, aborting
the lyrics task. -/
inductive Effect where
  | replyOwner (o : Nat)
  | replyPlayer (p : Nat)
  | replyActive (b : Bool)
  | replyReactivate (r : Except Error Unit)
  | playerShutdown (p : Nat)
  | callLeave
  | chatNotice (title : String)
  | embedUpdate (force : Bool)
  | abortLyrics (h : Nat)
deriving DecidableEq, Repr

/-- The state owned by a running session actor: the `Session` struct, the set
of spawned timer tasks, the manager registry it deregisters itself from, and
whether its two inbound queues have been closed. -/
structure ActorState where
  session : Session
  timers : List TimerTask
  registry : Registry
  commandsClosed : Bool
  eventsClosed : Bool
deriving DecidableEq, Repr

/-- `Session::shutdown_player`: shut the producer down, restart the idle
timer, clear `active`, and remove the owner-keyed registry entry.  The
guild-keyed entry is not touched. -/
def shutdownPlayer (st : ActorState) : ActorState × List Effect :=
  let p := startTimeout st.session st.timers
  ({ st with
      session := { p.1 with active := false }
      timers := p.2
      registry := st.registry.removeSession (.Owner st.session.owner) },
    [.playerShutdown st.session.player])

/-- `Session::disconnect`: stop any running timeout, close both inbound
channels, and leave the voice call (errors ignored). -/
def disconnect (st : ActorState) : ActorState × List Effect :=
  let p := stopTimeout st.session st.timers
  ({ st with
      session := p.1
      timers := p.2
      commandsClosed := true
      eventsClosed := true },
    [.callLeave])

/-- `force_edit = !matches!(event, PlayerEvent::TrackChanged(_))`. -/
def forceEdit (event : PlayerEvent) : Bool :=
  match event with
  | .trackChanged _ => false
  | _ => true

/-- The playback-projection refresh at the tail of `Session::handle_event`:
if a playback embed is attached, invoke its update (forced except for
`TrackChanged`); if that delivery fails (`embedOk = false`) the projection is
detached. -/
def embedRefresh (st : ActorState) (embedOk : Bool) (event : PlayerEvent)
    (effects : List Effect) : ActorState × List Effect :=
  match st.session.playback_embed with
  | none => (st, effects)
  | some _h =>
    if embedOk then
      (st, effects ++ [.embedUpdate (forceEdit event)])
    else
      ({ st with session := { st.session with playback_embed := none } },
        effects ++ [.embedUpdate (forceEdit event)])

/-- `Session::handle_event`: the producer-event dispatch, followed by the
projection refresh.  `embedOk` is the environment's answer to
`invoke_update`. -/
def handleEvent (st : ActorState) (event : PlayerEvent) (embedOk : Bool) :
    ActorState × List Effect :=
  let step : ActorState × List Effect :=
    match event with
    | .play =>
      let p := stopTimeout st.session st.timers
      ({ st with session := p.1, timers := p.2 }, [])
    | .pause =>
      let p := startTimeout st.session st.timers
      ({ st with session := p.1, timers := p.2 }, [])
    | .stopped => shutdownPlayer st
    | .trackChanged _ => (st, [])
    | .connectionReset =>
      let p := disconnect st
      (p.1, p.2 ++ [.chatNotice "Spotify connection lost"])
  embedRefresh step.1 embedOk event step.2

/-- A `SessionCommand` delivered through the external or internal queue.  The
environment inputs a command's handling consumes (credential-store answer and
producer outcome for `Reactivate`, projection-creation outcome for the embed
commands) travel with the command, since they are chosen by the outside world
at handling time.  For the embed commands, `none` is a creation error (logged)
and `some r` is `Ok r`. -/
inductive Cmd where
  | getOwner
  | getPlayer
  | getActive
  | createPlaybackEmbed (res : Option (Option Nat))
  | createLyricsEmbed (res : Option (Option Nat))
  | reactivate (new_owner : Nat) (tokenRes : Except String (Option String))
      (playerRes : Except PlayerError (Nat × Nat))
  | shutdownPlayer
  | disconnect
  | disconnectTimedOut
deriving DecidableEq, Repr

/-- `Session::handle_command`.  The `Bool` is `ControlFlow::Break`: `true`
terminates the run loop. -/
def handleCommand (st : ActorState) (cmd : Cmd) :
    ActorState × List Effect × Bool :=
  match cmd with
  | .getOwner => (st, [.replyOwner st.session.owner], false)
  | .getPlayer => (st, [.replyPlayer st.session.player], false)
  | .getActive => (st, [.replyActive st.session.active], false)
  | .createPlaybackEmbed res =>
    match res with
    | none => (st, [], false)
    | some opt =>
      ({ st with session := { st.session with playback_embed := opt } }, [], false)
  | .createLyricsEmbed res =>
    match res with
    | none => (st, [], false)
    | some none => (st, [], false)
    | some (some h) =>
      let aborted := match st.session.lyrics_embed with
        | some cur => [Effect.abortLyrics cur]
        | none => []
      ({ st with session := { st.session with lyrics_embed := some h } },
        aborted, false)
  | .reactivate new_owner tokenRes playerRes =>
    let p := st.session.reactivate new_owner tokenRes playerRes
    ({ st with session := p.1 }, [.replyReactivate p.2], false)
  | .shutdownPlayer =>
    let p := shutdownPlayer st
    (p.1, p.2, false)
  | .disconnect =>
    let p := disconnect st
    (p.1, p.2, true)
  | .disconnectTimedOut =>
    let p := disconnect st
    (p.1, p.2 ++ [.chatNotice "It's a little quiet in here"], true)

/-- The command-processing part of `Session::run`: handle commands in order
until one of them breaks the loop (Disconnect / DisconnectTimedOut) or the
queue ends. -/
def runSession (st : ActorState) : List Cmd → ActorState
  | [] => st
  | cmd :: rest =>
    let p := handleCommand st cmd
    if p.2.2 then p.1 else runSession p.1 rest

/-- `impl Drop for Session`: signal the stored timeout sender, abort the
lyrics task, and remove the session from the registry both by guild id and by
owner id.  This runs when the actor task releases the `Session` value, on
every termination path. -/
def dropSession (st : ActorState) : ActorState :=
  let timers := cancelToken st.session.timeout_tx st.timers
  { st with
      session := { st.session with timeout_tx := none, lyrics_embed := none }
      timers := timers
      registry :=
        (st.registry.removeSession (.Guild st.session.guild_id)).removeSession
          (.Owner st.session.owner) }

/-- Operations performed on the voice transport during `Session::create`,
in call order. -/
inductive CallOp where
  | joinCall (guild chan : Nat)
  | deafen
  | leaveCall
deriving DecidableEq, Repr

/-- Whether a voice connection remains after the recorded transport
operations: the last join not followed by a leave. -/
def connectedAfter (ops : List CallOp) : Bool :=
  ops.foldl
    (fun acc op =>
      match op with
      | .joinCall _ _ => true
      | .leaveCall => false
      | .deafen => acc)
    false

/-- The environment's answers consumed by `Session::create`, in the order the
code asks for them: resolving the text channel (`Serenity` error, or whether
`to_channel(..).guild()` yields a guild channel), the credential store, the
transport join, and producer creation. -/
structure CreateEnv where
  channelRes : Except String Bool
  tokenRes : Except String (Option String)
  joinRes : Except String Nat
  playerRes : Except PlayerError (Nat × Nat)
deriving DecidableEq, Repr

/-- `Session::create`: resolve the text channel, fetch the centrally-stored
token, join the voice call (registering the disconnect handlers and
deafening), create the producer — undoing the join on producer failure and
classifying a bad-credentials failure as `AuthenticationFailed` — then build
the session with `active = true` and start its idle timer.  Returns the
spawned session state (with its timer tasks) or the error, together with the
transport operations performed. -/
def create (env : CreateEnv) (guild_id voice_channel_id text_channel_id owner : Nat) :
    Except Error (Session × List TimerTask) × List CallOp :=
  match env.channelRes with
  | .error e => (.error (.Serenity e), [])
  | .ok false => (.error .InvalidChannel, [])
  | .ok true =>
    let text_channel := text_channel_id
    match env.tokenRes with
    | .error e => (.error (.Storage e), [])
    | .ok none => (.error (.Other "No Spotify account linked to bot"), [])
    | .ok (some _access_token) =>
      match env.joinRes with
      | .error e => (.error (.JoinError e), [.joinCall guild_id voice_channel_id])
      | .ok _call =>
        match env.playerRes with
        | .error why =>
          (.error
            (if why = .badCredentials then .AuthenticationFailed else .Wrapped why),
            [.joinCall guild_id voice_channel_id, .deafen, .leaveCall])
        | .ok (player, player_events) =>
          let base : Session :=
            { guild_id := guild_id
              text_channel := text_channel
              owner := owner
              active := true
              player := player
              events := player_events
              timeout_tx := none
              nextToken := 0
              playback_embed := none
              lyrics_embed := none }
          (.ok (startTimeout base []),
            [.joinCall guild_id voice_channel_id, .deafen])

/-- The transport event shapes inspected by the disconnect bridge
(`EventContext::DriverDisconnect`, `EventContext::ClientDisconnect`, anything
else). -/
inductive EventCtx where
  | driverDisconnect
  | clientDisconnect (user_id : Nat)
  | otherEvent
deriving DecidableEq, Repr

/-- The command the bridge sends to the session, if any. -/
inductive BridgeAction where
  | disconnectSession
  | shutdownAudio
deriving DecidableEq, Repr

/-- `songbird::EventHandler::act` on `SessionHandle`.  `valid` is
`is_valid()` (the command endpoint is not closed); `activeRes` and `ownerRes`
are the outcomes of the `active()` and `owner()` queries (`none` when the
query fails).  Returns the action sent to the session and whether
`Some(Event::Cancel)` — self-deregistration from the transport runtime — is
returned. -/
def act (valid : Bool) (activeRes : Option Bool) (ownerRes : Option Nat)
    (event : EventCtx) : Option BridgeAction × Bool :=
  if !valid then
    (none, true)
  else
    match event with
    | .driverDisconnect => (some .disconnectSession, false)
    | .clientDisconnect user_id =>
      if !(activeRes.getD false) then
        (none, false)
      else
        match ownerRes with
        | some id => if id = user_id then (some .shutdownAudio, false) else (none, false)
        | none => (none, false)
    | .otherEvent => (none, false)

/-- Sample session in the active state, used to instantiate theorems at
concrete inputs. -/
def sampleActive : Session :=
  { guild_id := 10
    text_channel := 11
    owner := 12
    active := true
    player := 13
    events := 14
    timeout_tx := some 0
    nextToken := 1
    playback_embed := none
    lyrics_embed := none }

/-- Sample session in the idle state (after a player shutdown). -/
def sampleIdle : Session :=
  { sampleActive with active := false }

/-- Sample registry holding the entries inserted at session creation. -/
def sampleRegistry : Registry :=
  { byGuild := [(10, 77)], byOwner := [(12, 77)] }

/-- Finding a key among the pairs whose key was just filtered out always
fails. -/
theorem find?_filter_ne_key (l : List (Nat × Nat)) (k : Nat) :
    (l.filter (fun p => p.1 ≠ k)).find? (fun p => p.1 = k) = none := by
  induction l with
  | nil => rfl
  | cons a l ih =>
    by_cases h : a.1 = k
    · simp [List.filter_cons, h, ih]
    · simp [List.filter_cons, h, List.find?_cons, ih]

/-- Removing a guild key makes the guild lookup of that key fail. -/
theorem lookupGuild_removeGuild (r : Registry) (g : Nat) :
    (r.removeSession (.Guild g)).lookupGuild g = none := by
  simp [Registry.removeSession, Registry.lookupGuild, find?_filter_ne_key]

/-- Removing an owner key makes the owner lookup of that key fail. -/
theorem lookupOwner_removeOwner (r : Registry) (o : Nat) :
    (r.removeSession (.Owner o)).lookupOwner o = none := by
  simp [Registry.removeSession, Registry.lookupOwner, find?_filter_ne_key]

/-- C1: `Session::reactivate` is atomic with respect to failure.  On an
active session it returns `AlreadyActive` with the state byte-for-byte
unchanged, and on every failure path (storage error, no linked token,
producer-creation failure) the whole session — in particular owner, player
handle, event stream and `active` — is unchanged; the fields are only updated
after the producer was created successfully. -/
theorem reactivate_atomic (s : Session) (new_owner : Nat)
    (tokenRes : Except String (Option String))
    (playerRes : Except PlayerError (Nat × Nat)) :
    (s.active = true →
      s.reactivate new_owner tokenRes playerRes = (s, .error .AlreadyActive)) ∧
    (∀ e : Error, (s.reactivate new_owner tokenRes playerRes).2 = .error e →
      (s.reactivate new_owner tokenRes playerRes).1 = s) := by
  constructor
  · intro h
    simp [Session.reactivate, h]
  · intro e he
    by_cases ha : s.active
    · simp [Session.reactivate, ha]
    · cases tokenRes with
      | error m => simp [Session.reactivate, ha]
      | ok otok =>
        cases otok with
        | none => simp [Session.reactivate, ha]
        | some tk =>
          cases playerRes with
          | error why => simp [Session.reactivate, ha]
          | ok pe => simp [Session.reactivate, ha] at he

/-- Witness for C1: on a concrete active session, reactivation returns
`AlreadyActive` and leaves the state unchanged; on a concrete idle session
with no linked account, the state also survives the failure unchanged. -/
theorem reactivate_atomic_witness :
    (sampleActive.reactivate 7 (.ok (some "tok")) (.error .badCredentials)
      = (sampleActive, .error .AlreadyActive)) ∧
    (sampleIdle.reactivate 7 (.ok none) (.ok (8, 9))).1 = sampleIdle :=
  ⟨(reactivate_atomic sampleActive 7 (.ok (some "tok")) (.error .badCredentials)).1
      (by decide),
    (reactivate_atomic sampleIdle 7 (.ok none) (.ok (8, 9))).2
      (.Other "No Spotify account linked to bot") (by decide)⟩

/-- C3 counterexample: there is no input at all on which `Session::reactivate`
with a bad-credentials producer failure returns `AuthenticationFailed`; the
code only logs the authentication failure and returns the wrapped producer
error (`return Err(why.into())`), unlike `Session::create` which reclassifies
it. -/
theorem reactivate_badcreds_never_auth :
    ¬ ∃ (s : Session) (new_owner : Nat) (tokenRes : Except String (Option String)),
      (s.reactivate new_owner tokenRes (.error .badCredentials)).2
        = .error .AuthenticationFailed := by
  rintro ⟨s, new_owner, tokenRes, h⟩
  by_cases ha : s.active
  · simp [Session.reactivate, ha] at h
  · cases tokenRes with
    | error m => simp [Session.reactivate, ha] at h
    | ok otok =>
      cases otok with
      | none => simp [Session.reactivate, ha] at h
      | some tk => simp [Session.reactivate, ha] at h

/-- C3 (amended): when the producer rejects the centrally-stored credentials
during reactivation (bad-credentials sub-kind), `Session::reactivate` returns
the wrapped producer error still carrying the bad-credentials kind — the same
error path as any other producer failure — not the `AuthenticationFailed`
variant (which only `Session::create` produces). -/
theorem reactivate_badcreds_wrapped (s : Session) (new_owner : Nat) (tk : String)
    (h : s.active = false) :
    (s.reactivate new_owner (.ok (some tk)) (.error .badCredentials)).2
      = .error (.Wrapped .badCredentials) := by
  simp [Session.reactivate, h]

/-- Witness for the amended C3 at a concrete idle session. -/
theorem reactivate_badcreds_wrapped_witness :
    (sampleIdle.reactivate 7 (.ok (some "tok")) (.error .badCredentials)).2
      = .error (.Wrapped .badCredentials) :=
  reactivate_badcreds_wrapped sampleIdle 7 "tok" (by decide)

/-- C4: whenever producer creation fails during `Session::create` after the
voice transport was joined, the transport `leave` is invoked before the error
is returned (the recorded transport trace ends in a leave and no voice
connection remains), and the error is `AuthenticationFailed` for the
bad-credentials sub-kind and the wrapped producer error otherwise. -/
theorem create_undoes_join (env : CreateEnv)
    (guild_id voice_channel_id text_channel_id owner tk call : Nat)
    (why : PlayerError)
    (hch : env.channelRes = .ok true)
    (htok : env.tokenRes = .ok (some (toString tk)))
    (hjoin : env.joinRes = .ok call)
    (hplayer : env.playerRes = .error why) :
    create env guild_id voice_channel_id text_channel_id owner
      = (.error
          (if why = .badCredentials then .AuthenticationFailed else .Wrapped why),
          [.joinCall guild_id voice_channel_id, .deafen, .leaveCall]) ∧
    connectedAfter (create env guild_id voice_channel_id text_channel_id owner).2
      = false := by
  constructor
  · simp [create, hch, htok, hjoin, hplayer]
  · simp [create, hch, htok, hjoin, hplayer, connectedAfter]

/-- Witness for C4: a concrete environment whose producer creation fails with
a non-auth error yields the wrapped error and a trace with no remaining
connection. -/
theorem create_undoes_join_witness :
    create
      { channelRes := .ok true
        tokenRes := .ok (some (toString 5))
        joinRes := .ok 6
        playerRes := .error (.other "socket closed") }
      1 2 3 4
      = (.error (.Wrapped (.other "socket closed")), [.joinCall 1 2, .deafen, .leaveCall])
      ∧ connectedAfter
        (create
          { channelRes := .ok true
            tokenRes := .ok (some (toString 5))
            joinRes := .ok 6
            playerRes := .error (.other "socket closed") }
          1 2 3 4).2 = false := by
  have h := create_undoes_join
    { channelRes := .ok true
      tokenRes := .ok (some (toString 5))
      joinRes := .ok 6
      playerRes := .error (.other "socket closed") }
    1 2 3 4 5 6 (.other "socket closed") rfl rfl rfl rfl
  simpa using h

/-- Environment for the no-linked-account creation path. -/
def envNoToken : CreateEnv :=
  { channelRes := .ok true
    tokenRes := .ok none
    joinRes := .ok 0
    playerRes := .ok (1, 2) }

/-- C9 counterexample: with no stored token, `Session::create` fails with
`Other "No Spotify account linked to bot"`, which is not the literal
`Other "no account linked"` the claim states. -/
theorem create_no_token_message_cex :
    create envNoToken 1 2 3 4
      = (.error (.Other "No Spotify account linked to bot"), []) ∧
    (create envNoToken 1 2 3 4).1 ≠ .error (.Other "no account linked") := by
  constructor
  · rfl
  · decide

/-- C9 (amended): for every creation call in which the credential store
returns no token, creation fails with the generic error
`Other "No Spotify account linked to bot"`, and the failure happens before
the voice transport join is attempted: the transport trace is empty, so no
join or leave occurs. -/
theorem create_no_token (env : CreateEnv) (guild_id voice_channel_id text_channel_id owner : Nat)
    (hch : env.channelRes = .ok true)
    (htok : env.tokenRes = .ok none) :
    create env guild_id voice_channel_id text_channel_id owner
      = (.error (.Other "No Spotify account linked to bot"), []) := by
  simp [create, hch, htok]

/-- Witness for the amended C9 at the concrete environment. -/
theorem create_no_token_witness :
    create envNoToken 1 2 3 4
      = (.error (.Other "No Spotify account linked to bot"), []) :=
  create_no_token envNoToken 1 2 3 4 rfl rfl

/-- C10: a successful `Session::reactivate` updates exactly owner, player
handle, event stream and `active`; every other field — in particular the
pending-timeout sender `timeout_tx` — is unchanged, so the idle timer that
`shutdown_player` restarted is still the stored one after ownership transfer
(reactivation never touches the timer tasks, which live outside the fields it
writes). -/
theorem reactivate_frame :
    (∀ (s : Session) (new_owner : Nat) (tokenRes : Except String (Option String))
        (playerRes : Except PlayerError (Nat × Nat)) (s2 : Session),
      s.reactivate new_owner tokenRes playerRes = (s2, .ok ()) →
        s2.timeout_tx = s.timeout_tx ∧ s2.nextToken = s.nextToken ∧
        s2.guild_id = s.guild_id ∧ s2.text_channel = s.text_channel ∧
        s2.playback_embed = s.playback_embed ∧ s2.lyrics_embed = s.lyrics_embed ∧
        s2.owner = new_owner ∧ s2.active = true) ∧
    (∀ (st : ActorState) (new_owner : Nat) (tokenRes : Except String (Option String))
        (playerRes : Except PlayerError (Nat × Nat)) (s2 : Session),
      (shutdownPlayer st).1.session.reactivate new_owner tokenRes playerRes
          = (s2, .ok ()) →
        s2.timeout_tx = some st.session.nextToken ∧
        TimerTask.mk st.session.nextToken false ∈ (shutdownPlayer st).1.timers) := by
  have frame :
      ∀ (s : Session) (new_owner : Nat) (tokenRes : Except String (Option String))
        (playerRes : Except PlayerError (Nat × Nat)) (s2 : Session),
        s.reactivate new_owner tokenRes playerRes = (s2, .ok ()) →
          s2.timeout_tx = s.timeout_tx ∧ s2.nextToken = s.nextToken ∧
          s2.guild_id = s.guild_id ∧ s2.text_channel = s.text_channel ∧
          s2.playback_embed = s.playback_embed ∧ s2.lyrics_embed = s.lyrics_embed ∧
          s2.owner = new_owner ∧ s2.active = true := by
    intro s new_owner tokenRes playerRes s2 h
    by_cases ha : s.active
    · simp [Session.reactivate, ha] at h
    · cases tokenRes with
      | error m => simp [Session.reactivate, ha] at h
      | ok otok =>
        cases otok with
        | none => simp [Session.reactivate, ha] at h
        | some tk =>
          cases playerRes with
          | error why => simp [Session.reactivate, ha] at h
          | ok pe =>
            obtain ⟨p, ev⟩ := pe
            have h1 := congrArg Prod.fst h
            simp [Session.reactivate, ha] at h1
            subst h1
            simp
  refine ⟨frame, ?_⟩
  intro st new_owner tokenRes playerRes s2 h
  obtain ⟨hto, -, -, -, -, -, -, -⟩ :=
    frame (shutdownPlayer st).1.session new_owner tokenRes playerRes s2 h
  refine ⟨?_, ?_⟩
  · rw [hto]
    simp [shutdownPlayer, startTimeout]
  · simp [shutdownPlayer, startTimeout]

/-- Witness for C10: a successful reactivation of a concrete idle session
keeps the stored timeout sender and identity fields, and sets owner and
`active`. -/
theorem reactivate_frame_witness :
    (sampleIdle.reactivate 7 (.ok (some "tok")) (.ok (8, 9))).1.timeout_tx
        = sampleIdle.timeout_tx ∧
    (sampleIdle.reactivate 7 (.ok (some "tok")) (.ok (8, 9))).1.owner = 7 ∧
    (sampleIdle.reactivate 7 (.ok (some "tok")) (.ok (8, 9))).1.active = true := by
  have h := reactivate_frame.1 sampleIdle 7 (.ok (some "tok")) (.ok (8, 9))
    (sampleIdle.reactivate 7 (.ok (some "tok")) (.ok (8, 9))).1 (by decide)
  exact ⟨h.1, h.2.2.2.2.2.2.1, h.2.2.2.2.2.2.2⟩

/-- C5: `Session::shutdown_player` shuts the audio producer down, removes
only the owner-keyed registry entry (the guild index is untouched), clears
`active`, restarts the idle timer (a fresh cancellation token is stored and a
fresh live timer task is spawned after the old token is signalled), and sends
no reply to any caller: its only effect is the producer shutdown. -/
theorem shutdown_player_spec (st : ActorState) :
    (shutdownPlayer st).2 = [.playerShutdown st.session.player] ∧
    (shutdownPlayer st).1.session.active = false ∧
    (shutdownPlayer st).1.session.owner = st.session.owner ∧
    (shutdownPlayer st).1.registry.byGuild = st.registry.byGuild ∧
    (shutdownPlayer st).1.registry.byOwner
      = st.registry.byOwner.filter (fun p => p.1 ≠ st.session.owner) ∧
    (shutdownPlayer st).1.registry.lookupOwner st.session.owner = none ∧
    (shutdownPlayer st).1.session.timeout_tx = some st.session.nextToken ∧
    (shutdownPlayer st).1.timers
      = cancelToken st.session.timeout_tx st.timers
          ++ [TimerTask.mk st.session.nextToken false] := by
  refine ⟨rfl, rfl, rfl, rfl, rfl, ?_, rfl, rfl⟩
  exact lookupOwner_removeOwner st.registry st.session.owner

/-- Invariant tying spawned timer tasks to the stored cancellation sender:
every spawned task's token was handed out by the counter, and a task whose
cancellation channel was never signalled is the one whose sender is currently
stored in `timeout_tx`. -/
def TimerInv (s : Session) (timers : List TimerTask) : Prop :=
  (∀ tm ∈ timers, tm.token < s.nextToken) ∧
  (∀ tm ∈ timers, tm.cancelled = false → s.timeout_tx = some tm.token)

/-- Every timer task kept by `cancelToken` comes from the original list with
its token unchanged. -/
theorem cancelToken_token_mem (t : Nat) (timers : List TimerTask) :
    ∀ tm ∈ cancelToken (some t) timers, ∃ tm0 ∈ timers, tm0.token = tm.token := by
  intro tm hmem
  simp only [cancelToken, List.mem_map] at hmem
  obtain ⟨tm0, hmem0, heq⟩ := hmem
  refine ⟨tm0, hmem0, ?_⟩
  by_cases ht : tm0.token = t
  · rw [if_pos ht] at heq
    rw [← heq]
  · rw [if_neg ht] at heq
    rw [← heq]

/-- If every live timer task's sender is the stored one, then signalling the
stored sender leaves no live timer task at all. -/
theorem no_live_after_cancel (s : Session) (timers : List TimerTask)
    (hlive : ∀ tm ∈ timers, tm.cancelled = false → s.timeout_tx = some tm.token) :
    ∀ tm ∈ cancelToken s.timeout_tx timers, tm.cancelled = true := by
  intro tm hmem
  cases hto : s.timeout_tx with
  | none =>
    rw [hto] at hmem
    simp only [cancelToken] at hmem
    cases hc : tm.cancelled with
    | true => rfl
    | false =>
      have := hlive tm hmem hc
      rw [hto] at this
      exact Option.noConfusion this
  | some t =>
    rw [hto] at hmem
    simp only [cancelToken, List.mem_map] at hmem
    obtain ⟨tm0, hmem0, heq⟩ := hmem
    by_cases ht : tm0.token = t
    · rw [if_pos ht] at heq
      rw [← heq]
    · rw [if_neg ht] at heq
      cases hc : tm0.cancelled with
      | true => rw [← heq]; exact hc
      | false =>
        have := hlive tm0 hmem0 hc
        rw [hto] at this
        exact absurd (Option.some.inj this).symm ht

/-- After a `start_timeout`, the invariant still holds, the stored sender is
the fresh token, every live timer task carries that fresh token, and exactly
one timer task is live. -/
theorem startTimeout_inv (s : Session) (timers : List TimerTask)
    (h : TimerInv s timers) :
    TimerInv (startTimeout s timers).1 (startTimeout s timers).2 ∧
    (startTimeout s timers).1.timeout_tx = some s.nextToken ∧
    (∀ tm ∈ (startTimeout s timers).2, tm.cancelled = false →
      tm.token = s.nextToken) ∧
    ((startTimeout s timers).2.countP (fun tm => !tm.cancelled) = 1) := by
  obtain ⟨hlt, hlive⟩ := h
  have hdead := no_live_after_cancel s timers hlive
  have htokbound : ∀ tm ∈ cancelToken s.timeout_tx timers, tm.token < s.nextToken := by
    intro tm hmem
    cases hto : s.timeout_tx with
    | none =>
      rw [hto] at hmem
      simp only [cancelToken] at hmem
      exact hlt tm hmem
    | some t =>
      rw [hto] at hmem
      obtain ⟨tm0, hmem0, htok0⟩ := cancelToken_token_mem t timers tm hmem
      rw [← htok0]
      exact hlt tm0 hmem0
  have hliveonly : ∀ tm ∈ (startTimeout s timers).2, tm.cancelled = false →
      tm.token = s.nextToken := by
    intro tm hmem hc
    simp only [startTimeout, List.mem_append, List.mem_singleton] at hmem
    rcases hmem with hmem | hmem
    · rw [hdead tm hmem] at hc
      exact Bool.noConfusion hc
    · rw [hmem]
  refine ⟨⟨?_, ?_⟩, rfl, hliveonly, ?_⟩
  · intro tm hmem
    simp only [startTimeout, List.mem_append, List.mem_singleton] at hmem
    rcases hmem with hmem | hmem
    · exact Nat.lt_succ_of_lt (htokbound tm hmem)
    · rw [hmem]
      exact Nat.lt_succ_self _
  · intro tm hmem hc
    rw [hliveonly tm hmem hc]
    rfl
  · have hzero : (cancelToken s.timeout_tx timers).countP (fun tm => !tm.cancelled) = 0 := by
      rw [List.countP_eq_zero]
      intro tm hmem
      rw [hdead tm hmem]
      decide
    simp only [startTimeout, List.countP_append, hzero]
    rfl

/-- C6: at most one live idle timer per session.  `start_timeout` signals the
previously stored cancellation sender before creating and storing a fresh
one, so after two successive starts the invariant still holds, exactly one
spawned timer task can still fire, any such task carries the token of the
most recent start (`s.nextToken + 1`, the second fresh token), and the first
start's task (token `s.nextToken`) has been cancelled — only the most recent
start can deliver `DisconnectTimedOut`. -/
theorem double_start_single_timer (s : Session) (timers : List TimerTask)
    (h : TimerInv s timers) :
    TimerInv (startTimeout (startTimeout s timers).1 (startTimeout s timers).2).1
      (startTimeout (startTimeout s timers).1 (startTimeout s timers).2).2 ∧
    (startTimeout (startTimeout s timers).1 (startTimeout s timers).2).2.countP
      (fun tm => !tm.cancelled) = 1 ∧
    (∀ tm ∈ (startTimeout (startTimeout s timers).1 (startTimeout s timers).2).2,
      tm.canFire = true →
        (startTimeout (startTimeout s timers).1 (startTimeout s timers).2).1.timeout_tx
            = some tm.token ∧
          tm.token = s.nextToken + 1) ∧
    (∀ tm ∈ (startTimeout (startTimeout s timers).1 (startTimeout s timers).2).2,
      tm.token = s.nextToken → tm.cancelled = true) := by
  obtain ⟨hinv1, -, -, -⟩ := startTimeout_inv s timers h
  obtain ⟨hinv2, hto2, hlive2, hcount2⟩ :=
    startTimeout_inv (startTimeout s timers).1 (startTimeout s timers).2 hinv1
  have hnext : (startTimeout s timers).1.nextToken = s.nextToken + 1 := rfl
  refine ⟨hinv2, hcount2, ?_, ?_⟩
  · intro tm hmem hfire
    have hc : tm.cancelled = false := by
      cases hcb : tm.cancelled with
      | false => rfl
      | true =>
        rw [TimerTask.canFire, hcb] at hfire
        exact Bool.noConfusion hfire
    have htok := hlive2 tm hmem hc
    rw [hnext] at htok
    constructor
    · rw [hto2, hnext, htok]
    · exact htok
  · intro tm hmem htok
    cases hcb : tm.cancelled with
    | true => rfl
    | false =>
      have := hlive2 tm hmem hcb
      rw [hnext, htok] at this
      exact absurd this (Nat.ne_of_lt (Nat.lt_succ_self _))

/-- Witness for C6: starting the timer twice on a concrete idle session with
one live timer task leaves exactly one live timer task. -/
theorem double_start_single_timer_witness :
    (startTimeout (startTimeout sampleIdle [TimerTask.mk 0 false]).1
        (startTimeout sampleIdle [TimerTask.mk 0 false]).2).2.countP
      (fun tm => !tm.cancelled) = 1 :=
  (double_start_single_timer sampleIdle [TimerTask.mk 0 false]
      (by unfold TimerInv; exact ⟨by decide, by decide⟩)).2.1

/-- C7: dispatch of the transport disconnect bridge.  With an invalid handle
the callback returns `Some(Event::Cancel)` (self-deregistration) and sends
nothing; with a valid handle a driver disconnect unconditionally triggers the
full session disconnect; a client disconnect triggers the audio shutdown
exactly when the session reports active and the departing participant is the
reported owner; any other event shape does nothing. -/
theorem bridge_dispatch (activeRes : Option Bool) (ownerRes : Option Nat)
    (user_id : Nat) :
    (∀ event, act false activeRes ownerRes event = (none, true)) ∧
    act true activeRes ownerRes .driverDisconnect = (some .disconnectSession, false) ∧
    (act true activeRes ownerRes (.clientDisconnect user_id)
      = if activeRes.getD false = true ∧ ownerRes = some user_id then
          (some .shutdownAudio, false)
        else (none, false)) ∧
    act true activeRes ownerRes .otherEvent = (none, false) := by
  refine ⟨fun event => rfl, rfl, ?_, rfl⟩
  cases activeRes with
  | none => cases ownerRes <;> simp [act]
  | some a =>
    cases a with
    | false => cases ownerRes <;> simp [act]
    | true =>
      cases ownerRes with
      | none => simp [act]
      | some id =>
        by_cases hid : id = user_id
        · simp [act, hid]
        · simp [act, hid, Ne.symm hid]

/-- The projection refresh at the end of `handle_event` never changes timer
state or the stored timeout sender. -/
theorem embedRefresh_frame (st : ActorState) (b : Bool) (event : PlayerEvent)
    (effects : List Effect) :
    (embedRefresh st b event effects).1.session.timeout_tx = st.session.timeout_tx ∧
    (embedRefresh st b event effects).1.timers = st.timers := by
  cases hpe : st.session.playback_embed <;> cases b <;> simp [embedRefresh, hpe]

/-- C8: `Session::handle_event` maps producer events to timer effects exactly
as: `Play` signals (cancels) the stored timeout and starts none; `Pause`
replaces the stored sender with a fresh token and spawns exactly one new
timer task; `Stopped` runs the `shutdown_player` effect; `TrackChanged`
leaves timeout sender and timer tasks untouched; `ConnectionReset` runs the
full `disconnect` effect and emits the one-time chat notice. -/
theorem handle_event_effects (st : ActorState) (b : Bool) (track : Nat) :
    ((handleEvent st .play b).1.session.timeout_tx = none ∧
      (handleEvent st .play b).1.timers = cancelToken st.session.timeout_tx st.timers) ∧
    ((handleEvent st .pause b).1.session.timeout_tx = some st.session.nextToken ∧
      (handleEvent st .pause b).1.timers
        = cancelToken st.session.timeout_tx st.timers
            ++ [TimerTask.mk st.session.nextToken false]) ∧
    (handleEvent st .stopped b
      = embedRefresh (shutdownPlayer st).1 b .stopped (shutdownPlayer st).2) ∧
    ((handleEvent st (.trackChanged track) b).1.session.timeout_tx
        = st.session.timeout_tx ∧
      (handleEvent st (.trackChanged track) b).1.timers = st.timers) ∧
    (handleEvent st .connectionReset b
      = embedRefresh (disconnect st).1 b .connectionReset
          ((disconnect st).2 ++ [.chatNotice "Spotify connection lost"]) ∧
      Effect.chatNotice "Spotify connection lost"
        ∈ (handleEvent st .connectionReset b).2) := by
  refine ⟨⟨?_, ?_⟩, ⟨?_, ?_⟩, rfl, ⟨?_, ?_⟩, rfl, ?_⟩ <;>
    cases hto : st.session.timeout_tx <;> cases hpe : st.session.playback_embed <;>
      cases b <;>
      simp [handleEvent, stopTimeout, startTimeout, embedRefresh, cancelToken,
        disconnect, hto, hpe]

/-- No command handled by the run loop ever changes the session's guild id. -/
theorem handleCommand_guild (st : ActorState) (cmd : Cmd) :
    (handleCommand st cmd).1.session.guild_id = st.session.guild_id := by
  cases cmd with
  | getOwner => rfl
  | getPlayer => rfl
  | getActive => rfl
  | createPlaybackEmbed res => cases res <;> rfl
  | createLyricsEmbed res =>
    cases res with
    | none => rfl
    | some o => cases o <;> rfl
  | reactivate new_owner tokenRes playerRes =>
    show (st.session.reactivate new_owner tokenRes playerRes).1.guild_id
      = st.session.guild_id
    by_cases ha : st.session.active
    · simp [Session.reactivate, ha]
    · cases tokenRes with
      | error m => simp [Session.reactivate, ha]
      | ok otok =>
        cases otok with
        | none => simp [Session.reactivate, ha]
        | some tk =>
          cases playerRes with
          | error why => simp [Session.reactivate, ha]
          | ok pe =>
            obtain ⟨p, ev⟩ := pe
            simp [Session.reactivate, ha]
  | shutdownPlayer => rfl
  | disconnect =>
    cases hto : st.session.timeout_tx <;>
      simp [handleCommand, disconnect, stopTimeout, hto]
  | disconnectTimedOut =>
    cases hto : st.session.timeout_tx <;>
      simp [handleCommand, disconnect, stopTimeout, hto]

/-- The command-processing loop never changes the session's guild id. -/
theorem runSession_guild (cmds : List Cmd) :
    ∀ st : ActorState, (runSession st cmds).session.guild_id = st.session.guild_id := by
  induction cmds with
  | nil => intro st; rfl
  | cons cmd rest ih =>
    intro st
    show (if (handleCommand st cmd).2.2 then (handleCommand st cmd).1
      else runSession (handleCommand st cmd).1 rest).session.guild_id
        = st.session.guild_id
    by_cases hb : (handleCommand st cmd).2.2
    · rw [if_pos hb]
      exact handleCommand_guild st cmd
    · rw [if_neg hb, ih (handleCommand st cmd).1]
      exact handleCommand_guild st cmd

/-- The guild index is untouched by an owner-keyed removal. -/
theorem lookupGuild_removeOwner (r : Registry) (o g : Nat) :
    (r.removeSession (.Owner o)).lookupGuild g = r.lookupGuild g := rfl

/-- A session created by `Session::create` carries the guild id it was
created for. -/
theorem create_ok_guild (env : CreateEnv)
    (guild_id voice_channel_id text_channel_id owner : Nat)
    (s0 : Session) (timers0 : List TimerTask)
    (h : (create env guild_id voice_channel_id text_channel_id owner).1
      = .ok (s0, timers0)) :
    s0.guild_id = guild_id := by
  cases hch : env.channelRes with
  | error e => simp [create, hch] at h
  | ok cb =>
    cases cb with
    | false => simp [create, hch] at h
    | true =>
      cases htok : env.tokenRes with
      | error e => simp [create, hch, htok] at h
      | ok otok =>
        cases otok with
        | none => simp [create, hch, htok] at h
        | some tk =>
          cases hj : env.joinRes with
          | error e => simp [create, hch, htok, hj] at h
          | ok call =>
            cases hp : env.playerRes with
            | error why => simp [create, hch, htok, hj, hp] at h
            | ok pe =>
              obtain ⟨p, ev⟩ := pe
              simp [create, hch, htok, hj, hp, startTimeout, Prod.ext_iff] at h
              rw [← h.1]

/-- C2: cleanup is attached to the destructor, so it runs on every
termination path: after the actor for a session created by `Session::create`
processes any command sequence (ending in `Disconnect`,
`DisconnectTimedOut`, or queue exhaustion) and the `Session` value is
dropped, the registry has no entry for the session's guild and none for the
final owner, the timeout sender has been taken and signalled, and the lyrics
task has been taken and aborted — for every initial registry content. -/
theorem session_cleanup_on_drop (env : CreateEnv)
    (guild_id voice_channel_id text_channel_id owner : Nat)
    (s0 : Session) (timers0 : List TimerTask) (reg : Registry) (cmds : List Cmd)
    (h : (create env guild_id voice_channel_id text_channel_id owner).1
      = .ok (s0, timers0)) :
    (dropSession (runSession ⟨s0, timers0, reg, false, false⟩ cmds)).registry.lookupGuild
        guild_id = none ∧
    (dropSession (runSession ⟨s0, timers0, reg, false, false⟩ cmds)).registry.lookupOwner
        (runSession ⟨s0, timers0, reg, false, false⟩ cmds).session.owner = none ∧
    (dropSession (runSession ⟨s0, timers0, reg, false, false⟩ cmds)).session.timeout_tx
        = none ∧
    (dropSession (runSession ⟨s0, timers0, reg, false, false⟩ cmds)).session.lyrics_embed
        = none := by
  have hg : (runSession ⟨s0, timers0, reg, false, false⟩ cmds).session.guild_id
      = guild_id := by
    rw [runSession_guild cmds ⟨s0, timers0, reg, false, false⟩]
    exact create_ok_guild env guild_id voice_channel_id text_channel_id owner s0
      timers0 h
  refine ⟨?_, ?_, rfl, rfl⟩
  · show (((runSession ⟨s0, timers0, reg, false, false⟩ cmds).registry.removeSession
      (.Guild (runSession ⟨s0, timers0, reg, false, false⟩ cmds).session.guild_id)).removeSession
        (.Owner (runSession ⟨s0, timers0, reg, false, false⟩ cmds).session.owner)).lookupGuild
          guild_id = none
    rw [lookupGuild_removeOwner, hg]
    exact lookupGuild_removeGuild _ guild_id
  · exact lookupOwner_removeOwner _ _

/-- Witness for C2: a concrete successful creation followed by a player
shutdown and a disconnect leaves a registry that resolves neither the guild
nor the final owner, starting from a populated registry. -/
theorem session_cleanup_on_drop_witness :
    (dropSession (runSession
        ⟨((create
            { channelRes := .ok true
              tokenRes := .ok (some "tok")
              joinRes := .ok 6
              playerRes := .ok (13, 14) }
            10 2 11 12).1.toOption.get rfl).1,
          ((create
            { channelRes := .ok true
              tokenRes := .ok (some "tok")
              joinRes := .ok 6
              playerRes := .ok (13, 14) }
            10 2 11 12).1.toOption.get rfl).2,
          sampleRegistry, false, false⟩
        [Cmd.shutdownPlayer, Cmd.disconnect])).registry.lookupGuild 10 = none :=
  (session_cleanup_on_drop
    { channelRes := .ok true
      tokenRes := .ok (some "tok")
      joinRes := .ok 6
      playerRes := .ok (13, 14) }
    10 2 11 12
    ((create
      { channelRes := .ok true
        tokenRes := .ok (some "tok")
        joinRes := .ok 6
        playerRes := .ok (13, 14) }
      10 2 11 12).1.toOption.get rfl).1
    ((create
      { channelRes := .ok true
        tokenRes := .ok (some "tok")
        joinRes := .ok 6
        playerRes := .ok (13, 14) }
      10 2 11 12).1.toOption.get rfl).2
    sampleRegistry [Cmd.shutdownPlayer, Cmd.disconnect] rfl).1
